import Mathlib

/-!
Verification of the Snapshot Acquisition & Idempotent Ingestion Pipeline
(spotify-web-scrapper). The JavaScript sources are embedded shallowly:
pure functions (`parseCSV`, `normalizeTracks`, the SQL parameter bindings)
become Lean functions; the effectful orchestration (`processCountry`, the
batch loops of `main`, `processJsonFile`) becomes explicit state passing
over oracles for the external collaborators (fetch, file existence, DB
insert, file deletion), with an event trace recording the operations the
code performs, in order.
-/

/-- JavaScript `String.prototype.trim`: strips whitespace from both ends
(the chart payloads contain only ASCII whitespace, where the JS and Lean
whitespace classes agree). -/
def jsTrim (s : String) : String :=
  String.mk
    (((s.toList.dropWhile Char.isWhitespace).reverse.dropWhile
        Char.isWhitespace).reverse)

/-- Tail of JavaScript `String.prototype.split` on a one-character
separator: `current` is the chunk accumulated since the last separator. -/
def jsSplitGo (sep : Char) : List Char → List Char → List String
  | [], current => [String.mk current]
  | c :: rest, current =>
    if c = sep then String.mk current :: jsSplitGo sep rest []
    else jsSplitGo sep rest (current ++ [c])

/-- JavaScript `String.prototype.split` on a one-character separator:
`"".split(c) = [""]`, and a trailing separator yields a trailing `""`. -/
def jsSplit (sep : Char) (s : String) : List String :=
  jsSplitGo sep s.toList []

/-- Parses a nonempty all-digit character list to its decimal value;
`none` for an empty list or any non-digit character. -/
def digitsVal (cs : List Char) : Option Nat :=
  if cs ≠ [] ∧ cs.all Char.isDigit then
    some (cs.foldl (fun a c => a * 10 + (c.toNat - 48)) 0)
  else none

/-- Models the integer fragment of the JavaScript `Number(string)` coercion
used by `normalizeTracks`: surrounding whitespace is trimmed, an empty
string coerces to `0`, an optional single sign followed by decimal digits
coerces to the signed integer value, and anything else coerces to NaN,
represented here as `none` (the charts data holds integer figures only, so
the fractional/exponent/hex forms of `Number` are not needed). -/
def jsNumber (s : String) : Option Int :=
  let t := jsTrim s
  if t = "" then some 0
  else
    match t.toList with
    | '-' :: rest => (digitsVal rest).map (fun n => -(n : Int))
    | '+' :: rest => (digitsVal rest).map (fun n => (n : Int))
    | cs => (digitsVal cs).map (fun n => (n : Int))

/-- Coercion `Number(x)` applied to a field that may be absent
(`undefined`): `Number(undefined)` is NaN. -/
def jsNumberField (v : Option String) : Option Int :=
  match v with
  | none => none
  | some s => jsNumber s

/-- A parsed CSV row: the object built by `headers.reduce` in `parseCSV`,
kept as the (header, value) assignments in assignment order. -/
abbrev Row := List (String × String)

/-- Property access `row[k]` on the object built by `headers.reduce`:
the last assignment to a repeated key wins; a missing key is `undefined`. -/
def rowGet (row : Row) (k : String) : Option String :=
  (row.reverse.find? (fun p => p.1 == k)).map (fun p => p.2)

/-- The character scan of one data line in `parseCSV`: `current` is the
accumulated field, `inQuotes` the inside-quotes flag toggled by each `"`,
`values` the fields already flushed; a `,` flushes the field only when the
flag is false, and the end of the line flushes the accumulated field. -/
def scanLine : List Char → List Char → Bool → List String → List String
  | [], current, _, values => values ++ [jsTrim (String.mk current)]
  | c :: rest, current, inQuotes, values =>
    if c = '"' then
      scanLine rest current (!inQuotes) values
    else if c = ',' ∧ inQuotes = false then
      scanLine rest [] inQuotes (values ++ [jsTrim (String.mk current)])
    else
      scanLine rest (current ++ [c]) inQuotes values

/-- Splits one data line of `parseCSV` into its field values. -/
def parseLine (line : String) : List String :=
  scanLine line.toList [] false []

/-- Assignment `acc[header] = values[index] || ''` for every header, in
order: a missing or empty value contributes the empty string. -/
def buildRow (headers values : List String) : Row :=
  headers.enum.map (fun p => (p.2, values.getD p.1 ""))

/-- Function `parseCSV` (identical in all four script variants): trim the payload,
split into lines, take the trimmed comma-split first line as headers, and
scan every remaining line quote-aware into a header→value object. -/
def parseCSV (csv : String) : List Row :=
  let lines := jsSplit '\n' (jsTrim csv)
  let headers := (jsSplit ',' (lines.headD "")).map jsTrim
  (lines.drop 1).map (fun line => buildRow headers (parseLine line))

/-- The normalized snapshot item produced by `normalizeTracks`.
`Option Int` with `none` models a NaN-valued number; `Option String` with
`none` models an `undefined` string field; the outer `none` of
`previous_rank` models JavaScript `null` (the falsy-source branch). -/
structure Track where
  rank : Option Int
  uri : Option String
  artist_names : Option String
  track_name : Option String
  source : Option String
  peak_rank : Option Int
  previous_rank : Option (Option Int)
  days_on_chart : Option Int
  streams : Option Int
deriving Repr, DecidableEq

/-- One row of the map inside `normalizeTracks`: numeric fields go through
`Number`, string fields pass through, and `previous_rank` becomes `null`
when its source field is falsy (absent or empty string). -/
def normalizeTrack (row : Row) : Track :=
  { rank := jsNumberField (rowGet row "rank")
    uri := rowGet row "uri"
    artist_names := rowGet row "artist_names"
    track_name := rowGet row "track_name"
    source := rowGet row "source"
    peak_rank := jsNumberField (rowGet row "peak_rank")
    previous_rank :=
      match rowGet row "previous_rank" with
      | none => none
      | some s => if s = "" then none else some (jsNumber s)
    days_on_chart := jsNumberField (rowGet row "days_on_chart")
    streams := jsNumberField (rowGet row "streams") }

/-- Function `normalizeTracks` (identical in all four script variants):
one normalized item per parsed row. -/
def normalizeTracks (rows : List Row) : List Track :=
  rows.map normalizeTrack

/-- The side-effecting operations a `processCountry` run performs, in
order: the `downloadCSV` fetch, the ledger existence check (with the date
it is keyed on), `parseCSV`, `normalizeTracks`, and the `writeFile`
persist (with the date folder/name it writes under). -/
inductive Event where
  | fetch
  | existsCheck (date : String)
  | parse
  | normalize
  | persist (date : String)
deriving Repr, DecidableEq

/-- The value `downloadCSV` resolves with in spotifyScraperByDate.js and
spotifyScraper.js: the payload text, the optional `YYYY-MM-DD` date
extracted from the artifact name (or page content), and the artifact name
for diagnostics. -/
structure FetchResult where
  csvContent : String
  csvDate : Option String
  csvFileName : String
deriving Repr, DecidableEq

/-- The claims-relevant fields of the JSON object `processCountry`
persists: the country, the date it is stored under, `total_tracks`, and
the normalized tracks. -/
structure Saved where
  country : String
  date : String
  total_tracks : Nat
  tracks : List Track
deriving Repr, DecidableEq

/-- The value `processCountry` returns to the batch loop:
`{ skipped, country, date }`. -/
structure Outcome where
  skipped : Bool
  country : String
  date : String
deriving Repr, DecidableEq

/-- The full observable result of one non-throwing `processCountry` run:
its returned outcome, whether the date-mismatch warning was logged, the
JSON written (`none` when skipped), and the event trace. -/
structure ProcRes where
  outcome : Outcome
  warned : Bool
  saved : Option Saved
  events : List Event
deriving Repr, DecidableEq

namespace ByDate

/-- Shallow embedding of `processCountry` from spotifyScraperByDate.js
(first script, lines 204-257). External effects are oracles: `fetched` is
what `downloadCSV` produced (or threw), `existsForDate` is
`checkIfDateExists country ·`. The code fetches first, throws when no
date could be extracted from the CSV name, logs a warning when the
extracted date differs from the requested one, then (when `SKIP_IF_EXISTS`)
checks existence against the extracted date and returns skipped, else
parses, normalizes and writes the JSON under the extracted date. -/
def processCountry (skipIfExists : Bool) (existsForDate : String → Bool)
    (fetched : Except String FetchResult) (country date : String) :
    Except String ProcRes :=
  match fetched with
  | .error e => .error e
  | .ok f =>
    match f.csvDate with
    | none => .error ("No se pudo extraer la fecha del CSV: " ++ f.csvFileName)
    | some csvDate =>
      let warned := csvDate != date
      if skipIfExists ∧ existsForDate csvDate = true then
        .ok { outcome := ⟨true, country, csvDate⟩, warned := warned,
              saved := none,
              events := [.fetch, .existsCheck csvDate] }
      else
        let tracks := normalizeTracks (parseCSV f.csvContent)
        .ok { outcome := ⟨false, country, date⟩, warned := warned,
              saved := some ⟨country, csvDate, tracks.length, tracks⟩,
              events := [Event.fetch]
                ++ (if skipIfExists then [Event.existsCheck csvDate] else [])
                ++ [.parse, .normalize, .persist csvDate] }

/-- The per-target tallies of the inner country loop of `main` in
spotifyScraperByDate.js (lines 318-332): `succ`/`skip`/`err` are the
`successCount`/`skippedCount`/`errorCount` counters, `attempted` the
indices for which `processCountry` was invoked. -/
structure BatchState where
  succ : Nat
  skip : Nat
  err : Nat
  attempted : List Nat
deriving Repr, DecidableEq

/-- One iteration of the country loop: invoke `processCountry` (its result
for index `i` given by the oracle `results`), bump `skippedCount` when the
outcome is skipped, `successCount` otherwise, and `errorCount` when it
threw — then continue with the next country regardless. -/
def batchStep (results : Nat → Except String Outcome) (s : BatchState)
    (i : Nat) : BatchState :=
  match results i with
  | .ok r =>
    if r.skipped then
      { s with skip := s.skip + 1, attempted := s.attempted ++ [i] }
    else
      { s with succ := s.succ + 1, attempted := s.attempted ++ [i] }
  | .error _ => { s with err := s.err + 1, attempted := s.attempted ++ [i] }

/-- The whole country loop over `n` targets. -/
def runBatch (results : Nat → Except String Outcome) (n : Nat) : BatchState :=
  (List.range n).foldl (batchStep results) ⟨0, 0, 0, []⟩

end ByDate

namespace Scraper

/-- Shallow embedding of `processCountry` from spotifyScraper.js (lines
213-266): fetch first, throw when no date could be extracted, then — only
when `shouldCheckExistence` and `SKIP_IF_EXISTS` — check `checkIfFileExists`
against the extracted date and return skipped; otherwise parse, normalize
and write the JSON under the extracted date (`result.date = csvDate`). -/
def processCountry (skipIfExists shouldCheckExistence : Bool)
    (fileExists : String → Bool) (fetched : Except String FetchResult)
    (country : String) : Except String ProcRes :=
  match fetched with
  | .error e => .error e
  | .ok f =>
    match f.csvDate with
    | none => .error ("No se pudo extraer la fecha del CSV: " ++ f.csvFileName)
    | some csvDate =>
      if (shouldCheckExistence ∧ skipIfExists) ∧ fileExists csvDate = true then
        .ok { outcome := ⟨true, country, csvDate⟩, warned := false,
              saved := none,
              events := [.fetch, .existsCheck csvDate] }
      else
        let tracks := normalizeTracks (parseCSV f.csvContent)
        .ok { outcome := ⟨false, country, csvDate⟩, warned := false,
              saved := some ⟨country, csvDate, tracks.length, tracks⟩,
              events := [Event.fetch]
                ++ (if shouldCheckExistence ∧ skipIfExists
                    then [Event.existsCheck csvDate] else [])
                ++ [.parse, .normalize, .persist csvDate] }

/-- The state of the country loop of `main` in spotifyScraper.js (lines
297-327): the three counters, the `skipAllCountries` flag, and the indices
for which `processCountry` was actually invoked (each invocation performs
the fetch). -/
structure BatchState where
  succ : Nat
  skip : Nat
  err : Nat
  skipAll : Bool
  invoked : List Nat
deriving Repr, DecidableEq

/-- One iteration of the loop: when `skipAllCountries` is set, count the
target skipped and `continue` without invoking `processCountry`; otherwise
invoke it, and when the first target (index 0) reports skipped, set
`skipAllCountries`. -/
def batchStep (results : Nat → Except String Outcome) (s : BatchState)
    (i : Nat) : BatchState :=
  if s.skipAll then { s with skip := s.skip + 1 }
  else
    match results i with
    | .ok r =>
      if r.skipped then
        { s with skip := s.skip + 1, skipAll := s.skipAll || (i == 0),
                 invoked := s.invoked ++ [i] }
      else
        { s with succ := s.succ + 1, invoked := s.invoked ++ [i] }
    | .error _ => { s with err := s.err + 1, invoked := s.invoked ++ [i] }

/-- The whole country loop over `n` targets. -/
def runBatch (results : Nat → Except String Outcome) (n : Nat) : BatchState :=
  (List.range n).foldl (batchStep results) ⟨0, 0, 0, false, []⟩

end Scraper

namespace Single

/-- The state of the target loop of `main` in spotifyScraperSingle.js
(lines 218-267): `completedCount`, `errorCount`, and the indices
attempted. -/
structure BatchState where
  completed : Nat
  err : Nat
  attempted : List Nat
deriving Repr, DecidableEq

/-- One iteration of the target loop: a throwing target bumps `errorCount`
and the loop continues with the next target. -/
def batchStep (results : Nat → Except String Unit) (s : BatchState)
    (i : Nat) : BatchState :=
  match results i with
  | .ok _ => { s with completed := s.completed + 1, attempted := s.attempted ++ [i] }
  | .error _ => { s with err := s.err + 1, attempted := s.attempted ++ [i] }

/-- The whole target loop over `n` targets. -/
def runBatch (results : Nat → Except String Unit) (n : Nat) : BatchState :=
  (List.range n).foldl (batchStep results) ⟨0, 0, []⟩

end Single

namespace LoadDB

/-- A JavaScript value as it can appear in a track field of a parsed JSON
artifact consumed by loadToDatabase.js: `null`, absent (`undefined`), a
number (`none` = NaN), or a string. -/
inductive JVal where
  | null
  | undef
  | num (n : Option Int)
  | str (s : String)
deriving Repr, DecidableEq

/-- JavaScript truthiness of such a value: `null`, `undefined`, `0`, NaN
and the empty string are falsy; everything else is truthy. -/
def truthy : JVal → Bool
  | .null => false
  | .undef => false
  | .num none => false
  | .num (some v) => v != 0
  | .str s => s != ""

/-- The coercion `x || null` used by `insertTrackData` for the nullable
columns: a falsy value binds SQL NULL, a truthy one binds unchanged. -/
def orNull (v : JVal) : JVal :=
  if truthy v then v else .null

/-- A track object as read from the JSON artifact by `processJsonFile`
(each field is an arbitrary JavaScript value). -/
structure DBTrack where
  rank : JVal
  uri : JVal
  artist_names : JVal
  track_name : JVal
  source : JVal
  peak_rank : JVal
  previous_rank : JVal
  days_on_chart : JVal
  streams : JVal
deriving Repr, DecidableEq

/-- The parameter bindings `insertTrackData` makes for one row insert
(lines 87-98 of loadToDatabase.js), in source order: `source`,
`peak_rank`, `previous_rank` and `days_on_chart` go through `|| null`,
while `rank`, `uri`, `artist_names`, `track_name` and `streams` are bound
as-is. -/
def insertBindings (date : String) (totalTracks : Int) (t : DBTrack) :
    List (String × JVal) :=
  [("date", .str date),
   ("total_tracks", .num (some totalTracks)),
   ("rank", t.rank),
   ("uri", t.uri),
   ("artist_names", t.artist_names),
   ("track_name", t.track_name),
   ("source", orNull t.source),
   ("peak_rank", orNull t.peak_rank),
   ("previous_rank", orNull t.previous_rank),
   ("days_on_chart", orNull t.days_on_chart),
   ("streams_today", t.streams)]

/-- The operations `processJsonFile` performs after parsing the artifact:
one insert attempt per track in order, then the `unlinkSync` of the
artifact file. -/
inductive LoadEvent where
  | insertAttempt (i : Nat)
  | deleteFile
deriving Repr, DecidableEq

/-- State of the insert loop of `processJsonFile` (lines 137-151):
`successCount`, `failedCount`, and the trace of attempts. -/
structure LoopState where
  success : Nat
  failed : Nat
  events : List LoadEvent
deriving Repr, DecidableEq

/-- One iteration of the insert loop: `insertTrackData` catches any insert
error internally and returns false, so the loop itself never throws; a
true result bumps `successCount`, a false one bumps `failedCount`, and the
loop continues with the next track either way. -/
def insertStep (insertOk : Nat → Bool) (s : LoopState) (i : Nat) : LoopState :=
  if insertOk i then
    { s with success := s.success + 1, events := s.events ++ [.insertAttempt i] }
  else
    { s with failed := s.failed + 1, events := s.events ++ [.insertAttempt i] }

/-- Return value of `processJsonFile` together with its event trace and
whether a deletion error was logged. -/
structure LoadResult where
  success : Nat
  failed : Nat
  events : List LoadEvent
  deleteFailedLogged : Bool
deriving Repr, DecidableEq

/-- Shallow embedding of the insert-and-cleanup part of `processJsonFile`
(lines 137-163 of loadToDatabase.js), for an artifact with `nTracks`
tracks: the insert of every track is attempted (outcome per index given by the
oracle `insertOk`), then the artifact file is deleted unconditionally; a
deletion failure (`deleteOk = false`) is caught and logged, and the
function still returns `{ success, failed }`. -/
def processJsonFile (insertOk : Nat → Bool) (deleteOk : Bool)
    (nTracks : Nat) : LoadResult :=
  let st := (List.range nTracks).foldl (insertStep insertOk) ⟨0, 0, []⟩
  { success := st.success
    failed := st.failed
    events := st.events ++ [.deleteFile]
    deleteFailedLogged := !deleteOk }

end LoadDB

/-- The country-loop bucket of a `processCountry` result: succeeded
(returned, not skipped). -/
def isSucc (r : Except String Outcome) : Bool :=
  match r with
  | .ok o => !o.skipped
  | .error _ => false

/-- The country-loop bucket of a `processCountry` result: skipped. -/
def isSkip (r : Except String Outcome) : Bool :=
  match r with
  | .ok o => o.skipped
  | .error _ => false

/-- The country-loop bucket of a `processCountry` result: threw. -/
def isFail (r : Except String Outcome) : Bool :=
  match r with
  | .ok _ => false
  | .error _ => true

/-- Whether an `Except` result is a success (the Single loop has only two
buckets). -/
def exceptOk {ε α : Type} (r : Except ε α) : Bool :=
  match r with
  | .ok _ => true
  | .error _ => false

theorem isSucc_ok (o : Outcome) : isSucc (.ok o) = !o.skipped := rfl

theorem isSkip_ok (o : Outcome) : isSkip (.ok o) = o.skipped := rfl

theorem isFail_ok (o : Outcome) : isFail (.ok o) = false := rfl

theorem isSucc_error (e : String) : isSucc (.error e) = false := rfl

theorem isSkip_error (e : String) : isSkip (.error e) = false := rfl

theorem isFail_error (e : String) : isFail (.error e) = true := rfl

theorem byDate_foldl_closed (results : Nat → Except String Outcome) :
    ∀ (l : List Nat) (s : ByDate.BatchState),
      l.foldl (ByDate.batchStep results) s =
        ⟨s.succ + l.countP (fun i => isSucc (results i)),
         s.skip + l.countP (fun i => isSkip (results i)),
         s.err + l.countP (fun i => isFail (results i)),
         s.attempted ++ l⟩ := by
  intro l
  induction l with
  | nil => intro s; simp
  | cons i l ih =>
    intro s
    rw [List.foldl_cons]
    cases h : results i with
    | ok o =>
      cases ho : o.skipped with
      | false =>
        have hstep : ByDate.batchStep results s i =
            { s with succ := s.succ + 1, attempted := s.attempted ++ [i] } := by
          unfold ByDate.batchStep
          rw [h]
          simp [ho]
        rw [hstep, ih]
        simp [List.countP_cons, h, ho, isSucc_ok, isSkip_ok, isFail_ok,
          ByDate.BatchState.mk.injEq]
        omega
      | true =>
        have hstep : ByDate.batchStep results s i =
            { s with skip := s.skip + 1, attempted := s.attempted ++ [i] } := by
          unfold ByDate.batchStep
          rw [h]
          simp [ho]
        rw [hstep, ih]
        simp [List.countP_cons, h, ho, isSucc_ok, isSkip_ok, isFail_ok,
          ByDate.BatchState.mk.injEq]
        omega
    | error e =>
      have hstep : ByDate.batchStep results s i =
          { s with err := s.err + 1, attempted := s.attempted ++ [i] } := by
        unfold ByDate.batchStep
        rw [h]
      rw [hstep, ih]
      simp [List.countP_cons, h, isSucc, isSkip, isFail,
        ByDate.BatchState.mk.injEq]
      omega

theorem single_foldl_closed (results : Nat → Except String Unit) :
    ∀ (l : List Nat) (s : Single.BatchState),
      l.foldl (Single.batchStep results) s =
        ⟨s.completed + l.countP (fun i => exceptOk (results i)),
         s.err + l.countP (fun i => !exceptOk (results i)),
         s.attempted ++ l⟩ := by
  intro l
  induction l with
  | nil => intro s; simp
  | cons i l ih =>
    intro s
    rw [List.foldl_cons]
    cases h : results i with
    | ok o =>
      have hstep : Single.batchStep results s i =
          { s with completed := s.completed + 1, attempted := s.attempted ++ [i] } := by
        unfold Single.batchStep
        rw [h]
      rw [hstep, ih]
      simp [List.countP_cons, h, exceptOk, Single.BatchState.mk.injEq]
      omega
    | error e =>
      have hstep : Single.batchStep results s i =
          { s with err := s.err + 1, attempted := s.attempted ++ [i] } := by
        unfold Single.batchStep
        rw [h]
      rw [hstep, ih]
      simp [List.countP_cons, h, exceptOk, Single.BatchState.mk.injEq]
      omega

theorem loadLoop_closed (insertOk : Nat → Bool) :
    ∀ (l : List Nat) (s : LoadDB.LoopState),
      l.foldl (LoadDB.insertStep insertOk) s =
        ⟨s.success + l.countP insertOk,
         s.failed + l.countP (fun i => !insertOk i),
         s.events ++ l.map LoadDB.LoadEvent.insertAttempt⟩ := by
  intro l
  induction l with
  | nil => intro s; simp
  | cons i l ih =>
    intro s
    rw [List.foldl_cons]
    cases h : insertOk i with
    | true =>
      have hstep : LoadDB.insertStep insertOk s i =
          { s with success := s.success + 1,
                   events := s.events ++ [.insertAttempt i] } := by
        unfold LoadDB.insertStep
        simp [h]
      rw [hstep, ih]
      simp [List.countP_cons, h, LoadDB.LoopState.mk.injEq]
      omega
    | false =>
      have hstep : LoadDB.insertStep insertOk s i =
          { s with failed := s.failed + 1,
                   events := s.events ++ [.insertAttempt i] } := by
        unfold LoadDB.insertStep
        simp [h]
      rw [hstep, ih]
      simp [List.countP_cons, h, LoadDB.LoopState.mk.injEq]
      omega

theorem scraper_skipAll_foldl (results : Nat → Except String Outcome) :
    ∀ (l : List Nat) (s : Scraper.BatchState), s.skipAll = true →
      l.foldl (Scraper.batchStep results) s =
        { s with skip := s.skip + l.length } := by
  intro l
  induction l with
  | nil => intro s h; simp
  | cons i l ih =>
    intro s h
    rw [List.foldl_cons]
    have hstep : Scraper.batchStep results s i = { s with skip := s.skip + 1 } := by
      unfold Scraper.batchStep
      rw [if_pos h]
    rw [hstep, ih _ (by simpa using h)]
    cases s
    simp [Scraper.BatchState.mk.injEq]
    omega

theorem count_partition (results : Nat → Except String Outcome) (l : List Nat) :
    l.countP (fun i => isSucc (results i)) + l.countP (fun i => isSkip (results i))
      + l.countP (fun i => isFail (results i)) = l.length := by
  induction l with
  | nil => simp
  | cons i l ih =>
    simp only [List.countP_cons, List.length_cons]
    cases h : results i with
    | ok o =>
      cases ho : o.skipped <;>
        simp [h, ho, isSucc_ok, isSkip_ok, isFail_ok] <;>
        omega
    | error e =>
      simp [h, isSucc_error, isSkip_error, isFail_error]
      omega

theorem scanLine_quoted (s : List Char) (h : ∀ c ∈ s, c ≠ '"') :
    ∀ (current : List Char) (values : List String),
      scanLine (s ++ ['"']) current true values =
        values ++ [jsTrim (String.mk (current ++ s))] := by
  induction s with
  | nil =>
    intro current values
    simp [scanLine]
  | cons c s ih =>
    intro current values
    have hc : ¬(c = '"') := h c (by simp)
    rw [List.cons_append, scanLine, if_neg hc, if_neg (by simp)]
    rw [ih (fun d hd => h d (by simp [hd])) (current ++ [c]) values]
    simp

/-- C7: a double-quoted field containing the comma delimiter parses as a
single value. The first conjunct is the general algorithmic fact for any
quote-free field content wrapped in quotes as a whole line; the remaining
conjuncts instantiate the example from the spec: the field `"a,b"` in a
comma-delimited row yields the single value `a,b`, not two values, both at
the line level and through `parseCSV`. -/
theorem c7_quoted_field_single_value :
    (∀ s : List Char, (∀ c ∈ s, c ≠ '"') →
        parseLine (String.mk ('"' :: (s ++ ['"']))) = [jsTrim (String.mk s)]) ∧
    parseLine "x,\"a,b\",y" = ["x", "a,b", "y"] ∧
    parseCSV "h1,h2,h3\nx,\"a,b\",y" =
      [[("h1", "x"), ("h2", "a,b"), ("h3", "y")]] := by
  refine ⟨?_, by decide, by decide⟩
  intro s h
  show scanLine ('"' :: (s ++ ['"'])) [] false [] = _
  rw [scanLine, if_pos rfl]
  show scanLine (s ++ ['"']) [] true [] = _
  rw [scanLine_quoted s h [] []]
  simp

/-- C7 witness: the general conjunct applied to the field content `a,b`. -/
theorem c7_witness :
    parseLine (String.mk ('"' :: ("a,b".toList ++ ['"']))) =
      [jsTrim (String.mk "a,b".toList)] :=
  c7_quoted_field_single_value.1 ("a,b".toList) (by decide)

/-- C1 counterexample: the payload `rank,uri\n1,a\nxx,b` has 2 data rows,
exactly one of which (`xx`) has a non-numeric `rank`, yet
`normalizeTracks` yields 2 items — not one less than the data-row count
(which would be 1): the malformed row is kept with a NaN `rank`, not
dropped. -/
theorem c1_counterexample :
    (jsSplit '\n' (jsTrim "rank,uri\n1,a\nxx,b")).length - 1 = 2 ∧
    (parseCSV "rank,uri\n1,a\nxx,b").countP
      (fun r => jsNumberField (rowGet r "rank") == none) = 1 ∧
    (normalizeTracks (parseCSV "rank,uri\n1,a\nxx,b")).length = 2 ∧
    decide ((normalizeTracks (parseCSV "rank,uri\n1,a\nxx,b")).length =
      ((jsSplit '\n' (jsTrim "rank,uri\n1,a\nxx,b")).length - 1) - 1) = false := by
  decide

/-- C1 (amended): for every payload in which exactly one parsed data row
has a non-numeric `rank`, normalizing all rows yields an item count EQUAL
to the data-row count, without raising for the whole payload; the
malformed row is the single item carrying the NaN `rank` sentinel (the
per-row validation failure surfaces downstream), and the remaining rows
are still normalized. -/
theorem c1_malformed_row_kept (csv : String)
    (h : (parseCSV csv).countP
      (fun r => jsNumberField (rowGet r "rank") == none) = 1) :
    (normalizeTracks (parseCSV csv)).length =
      (jsSplit '\n' (jsTrim csv)).length - 1 ∧
    (normalizeTracks (parseCSV csv)).countP (fun t => t.rank == none) = 1 := by
  constructor
  · simp [normalizeTracks, parseCSV]
  · simpa [normalizeTracks, List.countP_map, Function.comp] using h

/-- C1 witness: the amended theorem applied to a concrete payload with one
non-numeric `rank` among two data rows. -/
theorem c1_witness :
    (parseCSV "rank,uri\n1,a\nxx,b").countP
      (fun r => jsNumberField (rowGet r "rank") == none) = 1 ∧
    ((normalizeTracks (parseCSV "rank,uri\n1,a\nxx,b")).length =
       (jsSplit '\n' (jsTrim "rank,uri\n1,a\nxx,b")).length - 1 ∧
     (normalizeTracks (parseCSV "rank,uri\n1,a\nxx,b")).countP
       (fun t => t.rank == none) = 1) :=
  ⟨by decide, c1_malformed_row_kept "rank,uri\n1,a\nxx,b" (by decide)⟩

/-- C8: for a well-formed payload (the `rank` field of every parsed data
row coerces to an integer), parse-then-normalize yields exactly one item
per data line, the `rank` of the i-th item is the number parsed from the
`rank` field of the i-th row, and the `rank` of every item is an actual
integer (not NaN). -/
theorem c8_parse_normalize (csv : String)
    (h : ∀ r ∈ parseCSV csv, (jsNumberField (rowGet r "rank")).isSome = true) :
    (normalizeTracks (parseCSV csv)).length =
      (jsSplit '\n' (jsTrim csv)).length - 1 ∧
    (∀ i : Nat, ((normalizeTracks (parseCSV csv))[i]?).map Track.rank =
        ((parseCSV csv)[i]?).map (fun r => jsNumberField (rowGet r "rank"))) ∧
    (∀ t ∈ normalizeTracks (parseCSV csv), t.rank.isSome = true) := by
  refine ⟨?_, ?_, ?_⟩
  · simp [normalizeTracks, parseCSV]
  · intro i
    rw [normalizeTracks, List.getElem?_map, Option.map_map]
    rfl
  · intro t ht
    rw [normalizeTracks, List.mem_map] at ht
    obtain ⟨r, hr, rfl⟩ := ht
    exact h r hr

/-- C8 witness: the theorem applied to the end-to-end example payload
from the spec. -/
theorem c8_witness :
    (∀ r ∈ parseCSV "rank,uri,artist_names,track_name,source,peak_rank,previous_rank,days_on_chart,streams\n1,spotify:track:abc,Artist A,Song A,streaming,1,2,10,50000",
       (jsNumberField (rowGet r "rank")).isSome = true) ∧
    ((normalizeTracks (parseCSV "rank,uri,artist_names,track_name,source,peak_rank,previous_rank,days_on_chart,streams\n1,spotify:track:abc,Artist A,Song A,streaming,1,2,10,50000")).length =
       (jsSplit '\n' (jsTrim "rank,uri,artist_names,track_name,source,peak_rank,previous_rank,days_on_chart,streams\n1,spotify:track:abc,Artist A,Song A,streaming,1,2,10,50000")).length - 1 ∧
     (∀ i : Nat, ((normalizeTracks (parseCSV "rank,uri,artist_names,track_name,source,peak_rank,previous_rank,days_on_chart,streams\n1,spotify:track:abc,Artist A,Song A,streaming,1,2,10,50000"))[i]?).map Track.rank =
         ((parseCSV "rank,uri,artist_names,track_name,source,peak_rank,previous_rank,days_on_chart,streams\n1,spotify:track:abc,Artist A,Song A,streaming,1,2,10,50000")[i]?).map (fun r => jsNumberField (rowGet r "rank"))) ∧
     (∀ t ∈ normalizeTracks (parseCSV "rank,uri,artist_names,track_name,source,peak_rank,previous_rank,days_on_chart,streams\n1,spotify:track:abc,Artist A,Song A,streaming,1,2,10,50000"),
        t.rank.isSome = true)) :=
  ⟨by decide,
   c8_parse_normalize "rank,uri,artist_names,track_name,source,peak_rank,previous_rank,days_on_chart,streams\n1,spotify:track:abc,Artist A,Song A,streaming,1,2,10,50000" (by decide)⟩

/-- C4: every item of a snapshot is attempted independently by the insert
loop of `processJsonFile` — the general conjunct says, for any per-item
insert outcomes, the loader returns `successCount` = number of succeeding
items and `failedCount` = number of failing items, with every index
attempted in order; the final conjunct is the scenario from the spec: 5 items
where item 3 (index 2) fails yield `insertedCount = 4, failedCount = 1`,
with items 4 and 5 still attempted. -/
theorem c4_per_item_insert_isolation :
    (∀ (insertOk : Nat → Bool) (deleteOk : Bool) (n : Nat),
       (LoadDB.processJsonFile insertOk deleteOk n).success =
           (List.range n).countP insertOk ∧
       (LoadDB.processJsonFile insertOk deleteOk n).failed =
           (List.range n).countP (fun i => !insertOk i) ∧
       (LoadDB.processJsonFile insertOk deleteOk n).success
           + (LoadDB.processJsonFile insertOk deleteOk n).failed = n ∧
       (LoadDB.processJsonFile insertOk deleteOk n).events =
           (List.range n).map LoadDB.LoadEvent.insertAttempt
             ++ [LoadDB.LoadEvent.deleteFile]) ∧
    LoadDB.processJsonFile (fun i => !(i == 2)) true 5 =
      ⟨4, 1,
       [.insertAttempt 0, .insertAttempt 1, .insertAttempt 2,
        .insertAttempt 3, .insertAttempt 4, .deleteFile], false⟩ := by
  refine ⟨?_, by decide⟩
  intro insertOk deleteOk n
  have hcount : (List.range n).countP insertOk
      + (List.range n).countP (fun i => !insertOk i) = n := by
    have := (List.range n).length_eq_countP_add_countP insertOk
    simpa [List.length_range] using this.symm
  have hrun := loadLoop_closed insertOk (List.range n) ⟨0, 0, []⟩
  refine ⟨?_, ?_, ?_, ?_⟩
  all_goals simp [LoadDB.processJsonFile, hrun]
  omega

/-- C6: after all items of a snapshot are attempted, `processJsonFile`
attempts the deletion of the originating artifact file unconditionally
(the trace always ends in `deleteFile`, whatever the per-item insert
outcomes), and a deletion failure is only logged: the returned
`{ success, failed }` counts are exactly those of a run whose deletion
succeeded. -/
theorem c6_unconditional_cleanup (insertOk : Nat → Bool) (deleteOk : Bool)
    (n : Nat) :
    (LoadDB.processJsonFile insertOk deleteOk n).events =
      (List.range n).map LoadDB.LoadEvent.insertAttempt
        ++ [LoadDB.LoadEvent.deleteFile] ∧
    (LoadDB.processJsonFile insertOk deleteOk n).events.getLast? =
      some LoadDB.LoadEvent.deleteFile ∧
    (LoadDB.processJsonFile insertOk deleteOk n).success =
      (LoadDB.processJsonFile insertOk true n).success ∧
    (LoadDB.processJsonFile insertOk deleteOk n).failed =
      (LoadDB.processJsonFile insertOk true n).failed ∧
    (LoadDB.processJsonFile insertOk deleteOk n).deleteFailedLogged =
      !deleteOk := by
  have hrun := loadLoop_closed insertOk (List.range n) ⟨0, 0, []⟩
  refine ⟨?_, ?_, ?_, ?_, ?_⟩
  all_goals simp [LoadDB.processJsonFile, hrun]

/-- C10: in the parameter bindings of `insertTrackData`, the columns
`source`, `peak_rank`, `previous_rank` and `days_on_chart` go through the
`|| null` coercion — any falsy field value (absent, `null`, empty string,
`0`, NaN) binds NULL, so a `0` value of `peak_rank`, `previous_rank` or
`days_on_chart` is bound identically to an absent field — while `rank` and
`streams` are bound as-is, including a NaN value. -/
theorem c10_falsy_fields_bind_null (t : LoadDB.DBTrack) (date : String)
    (totalTracks : Int) :
    (LoadDB.insertBindings date totalTracks t).lookup "source" =
      some (LoadDB.orNull t.source) ∧
    (LoadDB.insertBindings date totalTracks t).lookup "peak_rank" =
      some (LoadDB.orNull t.peak_rank) ∧
    (LoadDB.insertBindings date totalTracks t).lookup "previous_rank" =
      some (LoadDB.orNull t.previous_rank) ∧
    (LoadDB.insertBindings date totalTracks t).lookup "days_on_chart" =
      some (LoadDB.orNull t.days_on_chart) ∧
    (LoadDB.insertBindings date totalTracks t).lookup "rank" = some t.rank ∧
    (LoadDB.insertBindings date totalTracks t).lookup "streams_today" =
      some t.streams ∧
    LoadDB.orNull (.num (some 0)) = LoadDB.JVal.null ∧
    LoadDB.orNull (.num none) = LoadDB.JVal.null ∧
    LoadDB.orNull .null = LoadDB.JVal.null ∧
    LoadDB.orNull .undef = LoadDB.JVal.null ∧
    LoadDB.orNull (.str "") = LoadDB.JVal.null ∧
    LoadDB.orNull (.num (some 0)) = LoadDB.orNull .undef := by
  exact ⟨rfl, rfl, rfl, rfl, rfl, rfl, rfl, rfl, rfl, rfl, rfl, rfl⟩

/-- C5: no target failure aborts the batch. The first conjunct gives the
closed form of the ByDate country loop for arbitrary per-target outcomes:
every index is attempted and the final report is exactly the three counts
succeeded/skipped/failed, which sum to the batch size. The remaining
conjuncts instantiate the scenario from the spec — 3 targets where the
fetch of target 2 throws `NavigationTimeout` — for the ByDate loop (report
{succeeded 2, skipped 0, failed 1}, target 3 attempted) and for the
spotifyScraperSingle loop (completed 2, errors 1, target 3 attempted). -/
theorem c5_batch_failure_isolation :
    (∀ (results : Nat → Except String Outcome) (n : Nat),
       ByDate.runBatch results n =
         ⟨(List.range n).countP (fun i => isSucc (results i)),
          (List.range n).countP (fun i => isSkip (results i)),
          (List.range n).countP (fun i => isFail (results i)),
          List.range n⟩ ∧
       (ByDate.runBatch results n).succ + (ByDate.runBatch results n).skip
         + (ByDate.runBatch results n).err = n) ∧
    ByDate.runBatch
      (fun i => if i = 1 then .error "NavigationTimeout"
                else .ok ⟨false, "global", "2026-01-02"⟩) 3 =
      ⟨2, 0, 1, [0, 1, 2]⟩ ∧
    Single.runBatch
      (fun i => if i = 1 then .error "NavigationTimeout" else .ok ()) 3 =
      ⟨2, 1, [0, 1, 2]⟩ := by
  refine ⟨?_, by decide, by decide⟩
  intro results n
  have hrun := byDate_foldl_closed results (List.range n) ⟨0, 0, 0, []⟩
  constructor
  · simpa [ByDate.runBatch] using hrun
  · have hpart := count_partition results (List.range n)
    simp [ByDate.runBatch, hrun]
    simpa [List.length_range] using hpart

/-- C9: in spotifyScraper.js, once the first target (index 0) reports
skipped, `skipAllCountries` is set and every remaining target is counted
skipped without `processCountry` (and hence its fetch/parse/load work)
being invoked: the batch ends with 0 succeeded, `n` skipped, 0 failed,
and index 0 is the only invoked target. -/
theorem c9_first_skip_skips_all (results : Nat → Except String Outcome)
    (n : Nat) (hn : 0 < n) (r : Outcome) (h0 : results 0 = .ok r)
    (hs : r.skipped = true) :
    Scraper.runBatch results n = ⟨0, n, 0, true, [0]⟩ := by
  obtain ⟨m, rfl⟩ : ∃ m, n = m + 1 := ⟨n - 1, by omega⟩
  rw [Scraper.runBatch, List.range_succ_eq_map, List.foldl_cons]
  have hstep : Scraper.batchStep results ⟨0, 0, 0, false, []⟩ 0 =
      ⟨0, 1, 0, true, [0]⟩ := by
    unfold Scraper.batchStep
    rw [h0]
    simp [hs]
  rw [hstep, scraper_skipAll_foldl results _ _ rfl]
  simp [Nat.add_comm]

/-- C9 witness: the theorem applied to a 3-target batch whose first target
reports skipped. -/
theorem c9_witness :
    Scraper.runBatch (fun _ => .ok ⟨true, "global", "2026-01-24"⟩) 3 =
      ⟨0, 3, 0, true, [0]⟩ :=
  c9_first_skip_skips_all (fun _ => .ok ⟨true, "global", "2026-01-24"⟩) 3
    (by decide) ⟨true, "global", "2026-01-24"⟩ rfl rfl

/-- C3: with duplicate-avoidance enabled and the ledger reporting
existence for the resolved date `d` (the date extracted from the fetched
artifact, not the requested one), `processCountry` returns a skipped
outcome whose trace holds only the fetch and the existence check keyed on
`d`: no parse, normalize or persist event occurs — in both the ByDate
variant and the spotifyScraper variant (where the check runs when
`shouldCheckExistence` is set). -/
theorem c3_duplicate_skipped_before_parse (existsF : String → Bool)
    (f : FetchResult) (country date d : String) (hd : f.csvDate = some d)
    (hex : existsF d = true) :
    ByDate.processCountry true existsF (.ok f) country date =
      .ok { outcome := ⟨true, country, d⟩, warned := d != date,
            saved := none, events := [.fetch, .existsCheck d] } ∧
    Scraper.processCountry true true existsF (.ok f) country =
      .ok { outcome := ⟨true, country, d⟩, warned := false,
            saved := none, events := [.fetch, .existsCheck d] } ∧
    ([Event.fetch, Event.existsCheck d].contains Event.parse) = false ∧
    ([Event.fetch, Event.existsCheck d].contains Event.normalize) = false ∧
    (∀ x : String,
      ([Event.fetch, Event.existsCheck d].contains (Event.persist x)) = false) := by
  refine ⟨?_, ?_, by simp, by simp, by intro x; simp⟩
  · simp [ByDate.processCountry, hd, hex]
  · simp [Scraper.processCountry, hd, hex]

/-- C3 witness: the theorem applied to a fetched artifact resolving to
`2026-01-24` with a ledger containing that date. -/
theorem c3_witness :
    ByDate.processCountry true (fun s => s == "2026-01-24")
        (.ok ⟨"rank,uri\n1,a", some "2026-01-24",
              "regional-global-daily-2026-01-24.csv"⟩) "global" "2026-01-02" =
      .ok { outcome := ⟨true, "global", "2026-01-24"⟩,
            warned := "2026-01-24" != "2026-01-02",
            saved := none,
            events := [.fetch, .existsCheck "2026-01-24"] } ∧
    Scraper.processCountry true true (fun s => s == "2026-01-24")
        (.ok ⟨"rank,uri\n1,a", some "2026-01-24",
              "regional-global-daily-2026-01-24.csv"⟩) "global" =
      .ok { outcome := ⟨true, "global", "2026-01-24"⟩, warned := false,
            saved := none,
            events := [.fetch, .existsCheck "2026-01-24"] } ∧
    ([Event.fetch, Event.existsCheck "2026-01-24"].contains Event.parse) = false ∧
    ([Event.fetch, Event.existsCheck "2026-01-24"].contains Event.normalize) = false ∧
    (∀ x : String,
      ([Event.fetch, Event.existsCheck "2026-01-24"].contains (Event.persist x)) = false) :=
  c3_duplicate_skipped_before_parse (fun s => s == "2026-01-24")
    ⟨"rank,uri\n1,a", some "2026-01-24", "regional-global-daily-2026-01-24.csv"⟩
    "global" "2026-01-02" "2026-01-24" rfl rfl

/-- C2 counterexample: with a concrete (non-"latest") requested date
`2026-01-02` and no claimed date extractable from the artifact,
`processCountry` throws — it does NOT fall back to the requested date, so
the claimed behavior (fall back to the requested date when no claimed
date could be extracted) fails at this input. -/
theorem c2_counterexample :
    ByDate.processCountry true (fun _ => false)
        (.ok ⟨"rank,uri\n1,a", none, "download.csv"⟩) "us" "2026-01-02" =
      .error "No se pudo extraer la fecha del CSV: download.csv" := by
  rfl

/-- C2 (amended): date resolution prefers the claimed date whenever one is
present — the snapshot is persisted under it and the mismatch flag is set
exactly when it differs from the requested date — and fails hard (target
error, nothing persisted) whenever no claimed date could be extracted,
whether the requested date was a concrete date or "latest". The four
conjuncts cover the ByDate variant without and with the ledger check
passing, and the claimed-date-missing hard failure in both the ByDate and
spotifyScraper variants. -/
theorem c2_date_resolution :
    (∀ (existsF : String → Bool) (f : FetchResult) (country date d : String),
        f.csvDate = some d →
        ByDate.processCountry false existsF (.ok f) country date =
          .ok { outcome := ⟨false, country, date⟩, warned := d != date,
                saved := some ⟨country, d,
                  (normalizeTracks (parseCSV f.csvContent)).length,
                  normalizeTracks (parseCSV f.csvContent)⟩,
                events := [.fetch, .parse, .normalize, .persist d] }) ∧
    (∀ (existsF : String → Bool) (f : FetchResult) (country date d : String),
        f.csvDate = some d → existsF d = false →
        ByDate.processCountry true existsF (.ok f) country date =
          .ok { outcome := ⟨false, country, date⟩, warned := d != date,
                saved := some ⟨country, d,
                  (normalizeTracks (parseCSV f.csvContent)).length,
                  normalizeTracks (parseCSV f.csvContent)⟩,
                events := [.fetch, .existsCheck d, .parse, .normalize,
                           .persist d] }) ∧
    (∀ (skipIf : Bool) (existsF : String → Bool) (f : FetchResult)
        (country date : String), f.csvDate = none →
        ByDate.processCountry skipIf existsF (.ok f) country date =
          .error ("No se pudo extraer la fecha del CSV: " ++ f.csvFileName)) ∧
    (∀ (skipIf shouldCheck : Bool) (existsF : String → Bool) (f : FetchResult)
        (country : String), f.csvDate = none →
        Scraper.processCountry skipIf shouldCheck existsF (.ok f) country =
          .error ("No se pudo extraer la fecha del CSV: " ++ f.csvFileName)) := by
  refine ⟨?_, ?_, ?_, ?_⟩
  · intro existsF f country date d hd
    simp [ByDate.processCountry, hd]
  · intro existsF f country date d hd hex
    simp [ByDate.processCountry, hd, hex]
  · intro skipIf existsF f country date hd
    simp [ByDate.processCountry, hd]
  · intro skipIf shouldCheck existsF f country hd
    simp [Scraper.processCountry, hd]

/-- C2 witness: the first conjunct applied to a "latest" request whose
artifact claims `2026-01-24` (resolved to the claimed date, mismatch flag
set), and the hard-failure conjunct applied to a concrete request with no
claimed date. -/
theorem c2_witness :
    ByDate.processCountry false (fun _ => false)
        (.ok ⟨"rank\n1", some "2026-01-24",
              "regional-global-daily-2026-01-24.csv"⟩) "global" "latest" =
      .ok { outcome := ⟨false, "global", "latest"⟩,
            warned := "2026-01-24" != "latest",
            saved := some ⟨"global", "2026-01-24",
              (normalizeTracks (parseCSV "rank\n1")).length,
              normalizeTracks (parseCSV "rank\n1")⟩,
            events := [.fetch, .parse, .normalize, .persist "2026-01-24"] } ∧
    ByDate.processCountry true (fun _ => false)
        (.ok ⟨"rank\n1", none, "download.csv"⟩) "us" "2026-01-02" =
      .error ("No se pudo extraer la fecha del CSV: " ++ "download.csv") :=
  ⟨c2_date_resolution.1 (fun _ => false)
      ⟨"rank\n1", some "2026-01-24", "regional-global-daily-2026-01-24.csv"⟩
      "global" "latest" "2026-01-24" rfl,
   c2_date_resolution.2.2.1 true (fun _ => false)
      ⟨"rank\n1", none, "download.csv"⟩ "us" "2026-01-02" rfl⟩
